import Mathlib

/-!
Shallow embedding of the host-agent orchestrator
(`host_agent/agent.py`, `host_agent/verification_agent.py`,
`host_agent/orchestration_tools.py`) and proofs about its
response-extraction, agent-resolution, verification and streaming logic.

Python truthiness on optional string fields (`part.get("text")`) is
modelled by `truthyStr`; truthiness of arbitrary JSON values
(`part.get("data")`) by `Json.truthy`. A field whose absence and empty
value behave identically under truthiness (lists guarded by `if x:`
before iteration) is modelled as a plain list. `json.dumps(..., indent=2,
ensure_ascii=False)` is an external library call and is passed in as an
opaque serialization function `dumps`.
-/

namespace HostAgentModel

/-- JSON values, as produced by `json.loads` on the wire payload. -/
inductive Json where
  | jnull
  | jbool (b : Bool)
  | jnum (n : Int)
  | jstr (s : String)
  | jarr (elems : List Json)
  | jobj (fields : List (String × Json))

/-- Python truthiness of a JSON value. -/
def Json.truthy : Json → Bool
  | .jnull => false
  | .jbool b => b
  | .jnum n => n ≠ 0
  | .jstr s => s ≠ ""
  | .jarr elems => !elems.isEmpty
  | .jobj fields => !fields.isEmpty

/-- Python truthiness of `d.get("text")` for an optional string field:
absent (`None`) and the empty string are both falsy. -/
def truthyStr : Option String → Bool
  | some s => s ≠ ""
  | none => false

/-- Python truthiness of `d.get(key)` where the value is a JSON boolean. -/
def optTrue : Option Bool → Bool
  | some b => b
  | none => false

/-! ## Response extraction (`HostAgent.send_message`, agent.py lines 252-305) -/

/-- One entry of `artifact["parts"]`: either a dict (with optional
`text`, `data` and `kind` fields) or a plain string. -/
inductive Part where
  | pdict (text : Option String) (data : Option Json) (kind : Option String)
  | pstr (s : String)

/-- One artifact of `result["artifacts"]`. An absent or empty `parts`
list both skip the inner loop, so `parts` is a plain list. -/
structure Artifact where
  parts : List Part

/-- One entry of `result["messages"]` or of
`result["status"]["message"]["parts"]`: a dict with an optional `text`
field, or anything that is not a dict (skipped by the code). -/
inductive MEntry where
  | mdict (text : Option String)
  | mother

/-- `result["status"]["message"]`. -/
structure StatusMessage where
  parts : List MEntry

/-- `result["status"]`. -/
structure TaskStatus where
  message : Option StatusMessage

/-- The `result` object of a success envelope, restricted to the fields
the extraction code reads. -/
structure RawResult where
  artifacts : List Artifact
  text : Option String
  messages : List MEntry
  status : Option TaskStatus

/-- Fragments taken from one part of an artifact (agent.py lines
262-280): a dict part yields its truthy `text`, else its truthy `data`
pretty-printed behind the fixed label, else its `text` when `kind`
equals "text" and `text` is truthy; a plain-string part is taken
verbatim. -/
def partTexts (dumps : Json → String) : Part → List String
  | .pdict text data kind =>
      if truthyStr text then [text.getD ""]
      else if (data.map Json.truthy).getD false then
        ["Extracted data:\n" ++ dumps (data.getD .jnull)]
      else if kind == some "text" && truthyStr text then [text.getD ""]
      else []
  | .pstr s => [s]

/-- Fragments from one artifact: its parts scanned in order. -/
def artifactTexts (dumps : Json → String) (a : Artifact) : List String :=
  (a.parts.map (partTexts dumps)).flatten

/-- Fragment from one `messages` / `status.message.parts` entry: its
`text` when the entry is a dict and the field is truthy. -/
def mentryTexts : MEntry → List String
  | .mdict text => if truthyStr text then [text.getD ""] else []
  | .mother => []

/-- All fragments collected by the extraction scan (agent.py lines
252-299), in source order: artifact parts, then `result.text`, then
`result.messages`, then `result.status.message.parts`. -/
def extractTexts (dumps : Json → String) (r : RawResult) : List String :=
  ((r.artifacts.map (artifactTexts dumps)).flatten)
  ++ (if truthyStr r.text then [r.text.getD ""] else [])
  ++ ((r.messages.map mentryTexts).flatten)
  ++ (match r.status with
      | some st =>
          match st.message with
          | some m => (m.parts.map mentryTexts).flatten
          | none => []
      | none => [])

/-- `response_text = "\n".join(texts) if texts else "No response from
agent"` (agent.py line 301). -/
def extractResponseText (dumps : Json → String) (r : RawResult) : String :=
  match extractTexts dumps r with
  | [] => "No response from agent"
  | ts => String.intercalate "\n" ts

/-! Named fragment groups, for stating the extraction-order claim. -/

/-- Group 1 of the scan: fragments of every artifact part. -/
def artifactFragments (dumps : Json → String) (r : RawResult) : List String :=
  (r.artifacts.map (artifactTexts dumps)).flatten

/-- Group 2 of the scan: the direct `result.text` when truthy. -/
def resultTextFragment (r : RawResult) : List String :=
  if truthyStr r.text then [r.text.getD ""] else []

/-- Group 3 of the scan: the `text` of each dict entry of
`result.messages`. -/
def messageFragments (r : RawResult) : List String :=
  (r.messages.map mentryTexts).flatten

/-- Group 4 of the scan: the `text` of each dict part of
`result.status.message.parts`. -/
def statusFragments (r : RawResult) : List String :=
  match r.status with
  | some st =>
      match st.message with
      | some m => (m.parts.map mentryTexts).flatten
      | none => []
  | none => []

/-! ## Extraction with the kind-branch removed (refinement target for the
unreachability claim about agent.py lines 275-277) -/

/-- The artifact-part scan with the `kind == "text"` branch deleted;
everything else is unchanged. -/
def partTextsNoKind (dumps : Json → String) : Part → List String
  | .pdict text data _kind =>
      if truthyStr text then [text.getD ""]
      else if (data.map Json.truthy).getD false then
        ["Extracted data:\n" ++ dumps (data.getD .jnull)]
      else []
  | .pstr s => [s]

/-- Artifact fragments with the kind-branch removed. -/
def artifactTextsNoKind (dumps : Json → String) (a : Artifact) : List String :=
  (a.parts.map (partTextsNoKind dumps)).flatten

/-- The full fragment scan with the kind-branch removed. -/
def extractTextsNoKind (dumps : Json → String) (r : RawResult) : List String :=
  ((r.artifacts.map (artifactTextsNoKind dumps)).flatten)
  ++ (if truthyStr r.text then [r.text.getD ""] else [])
  ++ ((r.messages.map mentryTexts).flatten)
  ++ (match r.status with
      | some st =>
          match st.message with
          | some m => (m.parts.map mentryTexts).flatten
          | none => []
      | none => [])

/-- The extracted response text with the kind-branch removed. -/
def extractResponseTextNoKind (dumps : Json → String) (r : RawResult) : String :=
  match extractTextsNoKind dumps r with
  | [] => "No response from agent"
  | ts => String.intercalate "\n" ts

/-! ## Agent-name resolution (`HostAgent.send_message`, agent.py lines
197-215) -/

/-- `agent_name.lower() in card_name.lower() or card_name.lower() in
agent_name.lower()` (agent.py line 203): case-insensitive substring
containment in either direction; `str.lower()` is modelled as the
per-character lowercase map over the string's characters. -/
def lowerChars (s : String) : List Char :=
  s.toList.map Char.toLower

def fuzzyMatch (requested cardName : String) : Bool :=
  decide (lowerChars requested <:+: lowerChars cardName)
  || decide (lowerChars cardName <:+: lowerChars requested)

/-- Resolution of the requested name against the directory keys, in
iteration (insertion) order: exact dict-key membership first, else the
first fuzzy match (agent.py lines 199-206). -/
def resolveAgentName (keys : List String) (requested : String) : Option String :=
  if keys.contains requested then some requested
  else keys.find? (fun k => fuzzyMatch requested k)

/-- `f"Error: Agent '{agent_name}' not found. Available agents:
{', '.join(available_agents)}"` (agent.py line 210). -/
def agentNotFoundError (requested : String) (keys : List String) : String :=
  "Error: Agent " ++ "'" ++ requested ++ "'"
    ++ " not found. Available agents: " ++ String.intercalate ", " keys

/-- Outcome of the name-resolution prefix of `send_message`: either the
delegation proceeds against a resolved directory key, or an error string
is returned and no delegation happens. -/
inductive RouteResult where
  | delegate (resolvedName : String)
  | errorReturn (msg : String)

/-- The routing step of `send_message` (agent.py lines 199-210): resolve
the name, or return the not-found error string without delegating. -/
def routeSendMessage (keys : List String) (requested : String) : RouteResult :=
  match resolveAgentName keys requested with
  | some n => .delegate n
  | none => .errorReturn (agentNotFoundError requested keys)

/-! ## Delegation outcome handling (`HostAgent.send_message`, agent.py
lines 233-310) -/

/-- The response envelope as classified by the code: either
`send_response.root` is a `SendMessageSuccessResponse` whose `result` is
a `Task` (carrying the fields extraction reads), or anything else. -/
inductive Envelope where
  | successTask (result : RawResult)
  | invalidShape

/-- What the awaited transport interaction did: raised an exception
(message of the exception), or produced a response envelope. -/
inductive SendOutcome where
  | raises (msg : String)
  | responds (e : Envelope)

/-- `f"Error communicating with {agent_name}: {str(e)}"` (agent.py line
308). -/
def commError (agentName msg : String) : String :=
  "Error communicating with " ++ agentName ++ ": " ++ msg

/-- `f"Error: Invalid response from agent {agent_name}"` (agent.py line
245). -/
def invalidResponseError (agentName : String) : String :=
  "Error: Invalid response from agent " ++ agentName

/-- The body of `send_message` after the connection is resolved (agent.py
lines 233-310): the `try` block classifies the envelope and extracts the
response text; any exception is caught and turned into the
communication-error string. Always returns a string, never raises. -/
def sendAfterResolve (dumps : Json → String) (agentName : String) :
    SendOutcome → String
  | .raises m => commError agentName m
  | .responds .invalidShape => invalidResponseError agentName
  | .responds (.successTask r) => extractResponseText dumps r

/-! ## Task/context id management (`HostAgent.send_message`, agent.py
lines 217-231) -/

/-- The slice of `tool_context.state` the id management reads. -/
structure ToolState where
  task_id : Option String
  context_id : Option String

/-- `state.get("task_id", str(uuid.uuid4()))` and likewise for
`context_id` (agent.py lines 218-220): read the id from state, falling
back to the given fresh UUID; the state is returned unchanged because the
code never writes the chosen ids back. -/
def sendMessageIdStep (state : ToolState) (freshTask freshCtx : String) :
    (String × String) × ToolState :=
  ((state.task_id.getD freshTask, state.context_id.getD freshCtx), state)

/-! ## Verification gate (`verify_response`, verification_agent.py lines
30-125) -/

/-- The JSON object requested from the generation backend
(verification_agent.py lines 62-70), as read back by `json.loads`: every
field may be absent. -/
structure ParsedVerdict where
  is_relevant : Option Bool
  is_safe : Option Bool
  topic_match : Option Bool
  risk_level : Option String
  explanation : Option String
  detected_issues : Option (List String)

/-- The verdict dict after `verify_response` adds the compatibility
fields `security_alert`, `status` and `emoji`. -/
structure Verdict where
  is_relevant : Option Bool
  is_safe : Option Bool
  topic_match : Option Bool
  risk_level : Option String
  explanation : Option String
  detected_issues : Option (List String)
  security_alert : Bool
  status : String
  emoji : String

/-- The compatibility-field augmentation (verification_agent.py lines
92-102): `security_alert = not result.get("is_safe", True)`,
`status = "relevant" if is_relevant and is_safe else "security_risk"`,
and the emoji chain keyed on truthiness of `is_safe` / `is_relevant`. -/
def augmentVerdict (p : ParsedVerdict) : Verdict :=
  { is_relevant := p.is_relevant
    is_safe := p.is_safe
    topic_match := p.topic_match
    risk_level := p.risk_level
    explanation := p.explanation
    detected_issues := p.detected_issues
    security_alert := !(p.is_safe.getD true)
    status :=
      if optTrue p.is_relevant && optTrue p.is_safe then "relevant"
      else "security_risk"
    emoji :=
      if !(optTrue p.is_safe) then "🚨"
      else if !(optTrue p.is_relevant) then "⚠️"
      else "✅" }

/-- The fail-open verdict returned by the `except` handler
(verification_agent.py lines 112-125). -/
def failOpenVerdict : Verdict :=
  { is_relevant := some true
    is_safe := some true
    topic_match := some true
    risk_level := some "none"
    explanation := some "Verification system unavailable, proceeding with caution"
    detected_issues := some []
    security_alert := false
    status := "relevant"
    emoji := "✅" }

/-- The value `verify_response` returns: a top-level `status` (always
"success") and the verification verdict. -/
structure VerifyResult where
  status : String
  verification : Verdict

/-- What the `try` block's external interactions did: either the
generation call or `json.loads` on its output raised (any exception,
with its message), or parsing yielded a verdict object. -/
inductive GenOutcome where
  | genFail (err : String)
  | genParsed (v : ParsedVerdict)

/-- `verify_response(original_query, agent_response, expected_topic)`
(verification_agent.py lines 30-125): on a parsed generation result,
return it augmented with compatibility fields; on any exception, return
the fail-open verdict. Total — every path returns a value. -/
def verify_response (original_query agent_response expected_topic : String)
    (outcome : GenOutcome) : VerifyResult :=
  match outcome with
  | .genParsed v => { status := "success", verification := augmentVerdict v }
  | .genFail _ => { status := "success", verification := failOpenVerdict }

/-! ## Streaming of the final response (`HostAgent.stream`, agent.py
lines 174-195) -/

/-- One part of an ADK event's content: only its optional `text` is
read. -/
structure EventPart where
  text : Option String

/-- An event's content: its list of parts (an absent or empty list is
falsy in the guard). -/
structure EventContent where
  parts : List EventPart

/-- The `response` computed for a final-response event (agent.py lines
178-186): the newline-join of the truthy part texts when the content,
its parts and the first part's text are all truthy, else the empty
string. -/
def finalEventContent (content : Option EventContent) : String :=
  match content with
  | none => ""
  | some c =>
      match c.parts with
      | [] => ""
      | p0 :: rest =>
          if truthyStr p0.text then
            String.intercalate "\n"
              (((p0 :: rest).filter (fun p => truthyStr p.text)).map
                (fun p => p.text.getD ""))
          else ""

/-- The event yielded for a final response (agent.py lines 187-190). -/
structure StreamEvent where
  is_task_complete : Bool
  content : String

/-- `yield {"is_task_complete": True, "content": response}`. -/
def finalStreamEvent (content : Option EventContent) : StreamEvent :=
  { is_task_complete := true, content := finalEventContent content }

/-! ## Shared helper lemmas -/

/-- Truthiness of an optional boolean equals holding `some true`. -/
theorem optTrue_iff (o : Option Bool) : optTrue o = true ↔ o = some true := by
  cases o with
  | none => simp [optTrue]
  | some b => cases b <;> simp [optTrue]

/-! ## Claim theorems -/

/-- Claim C1: `verify_response` is total — every outcome of the
generation call, including an exception anywhere in the `try` block,
yields a normally returned value with top-level status "success" — and
whenever the generation call or the parsing of its output fails, the
returned verdict is the fail-open one: `is_relevant = true`,
`is_safe = true`, `risk_level = "none"`, derived status "relevant", with
the explanatory note. -/
theorem verify_response_fail_open (q a t : String) :
    (∀ o : GenOutcome, (verify_response q a t o).status = "success") ∧
    ∀ e : String,
      verify_response q a t (GenOutcome.genFail e) =
        { status := "success", verification := failOpenVerdict } ∧
      failOpenVerdict.is_relevant = some true ∧
      failOpenVerdict.is_safe = some true ∧
      failOpenVerdict.risk_level = some "none" ∧
      failOpenVerdict.status = "relevant" ∧
      failOpenVerdict.explanation =
        some "Verification system unavailable, proceeding with caution" := by
  refine ⟨fun o => ?_, fun e => ⟨rfl, rfl, rfl, rfl, rfl, rfl⟩⟩
  cases o <;> rfl

/-- Claim C7: on the successful (parsed) path, the derived `status`
field is "relevant" exactly when both `is_relevant` and `is_safe` are
`true`, and is "security_risk" in every other case (including absent
fields, which are falsy). -/
theorem derived_status_iff (q a t : String) (v : ParsedVerdict) :
    ((verify_response q a t (GenOutcome.genParsed v)).verification.status =
        "relevant" ↔
      v.is_relevant = some true ∧ v.is_safe = some true) ∧
    ((verify_response q a t (GenOutcome.genParsed v)).verification.status =
        "relevant" ∨
      (verify_response q a t (GenOutcome.genParsed v)).verification.status =
        "security_risk") := by
  obtain ⟨ir, isf, tm, rl, ex, di⟩ := v
  cases ir with
  | none => cases isf <;> simp [verify_response, augmentVerdict, optTrue]
  | some b =>
      cases b <;> cases isf with
      | none => simp [verify_response, augmentVerdict, optTrue]
      | some c => cases c <;> simp [verify_response, augmentVerdict, optTrue]

/-- Claim C2: the id-management step of `send_message` reads `task_id` /
`context_id` from the tool state with a fresh UUID as fallback but never
writes the chosen ids back, so with a state that does not yet hold them
(the first delegation of a session) two consecutive calls of the same
session use two different task ids — the ids are NOT generated once and
reused. -/
theorem task_id_not_reused (u1 u2 u3 u4 : String) (h : u1 ≠ u3) :
    (sendMessageIdStep ⟨none, none⟩ u1 u2).2 = (⟨none, none⟩ : ToolState) ∧
    (sendMessageIdStep ⟨none, none⟩ u1 u2).1.1 ≠
      (sendMessageIdStep (sendMessageIdStep ⟨none, none⟩ u1 u2).2 u3 u4).1.1 := by
  exact ⟨rfl, by simpa [sendMessageIdStep] using h⟩

/-- Claim C2, witness: with concrete distinct fresh UUIDs the two calls
produce different task ids. -/
theorem task_id_not_reused_witness :
    ("uuid-1" : String) ≠ "uuid-3" ∧
    (sendMessageIdStep ⟨none, none⟩ "uuid-1" "uuid-2").1.1 ≠
      (sendMessageIdStep (sendMessageIdStep ⟨none, none⟩ "uuid-1" "uuid-2").2
        "uuid-3" "uuid-4").1.1 :=
  ⟨by decide, (task_id_not_reused "uuid-1" "uuid-2" "uuid-3" "uuid-4" (by decide)).2⟩

/-- Claim C3, counterexample: on a response with no recognizable text
field anywhere, the code returns "No response from agent" (capital N),
which is not the claimed string "no response from agent". -/
theorem sentinel_spelling_counterexample :
    extractTexts (fun _ => "") ⟨[], none, [], none⟩ = [] ∧
    extractResponseText (fun _ => "") ⟨[], none, [], none⟩ ≠
      "no response from agent" := by
  exact ⟨rfl, by decide⟩

/-- Claim C3 (amended): whenever the scan collects no fragment, the
extracted text is the sentinel "No response from agent" — a non-empty
string — rather than the empty string, so verification receives
non-empty input in that case. -/
theorem sentinel_on_empty_scan (dumps : Json → String) (r : RawResult)
    (h : extractTexts dumps r = []) :
    extractResponseText dumps r = "No response from agent" ∧
    extractResponseText dumps r ≠ "" := by
  have hv : extractResponseText dumps r = "No response from agent" := by
    unfold extractResponseText
    rw [h]
  exact ⟨hv, by rw [hv]; decide⟩

/-- Claim C3, witness for the amended statement: the all-absent response
satisfies the hypothesis and yields the sentinel. -/
theorem sentinel_on_empty_scan_witness :
    extractTexts (fun _ => "") ⟨[], none, [], none⟩ = [] ∧
    extractResponseText (fun _ => "") ⟨[], none, [], none⟩ =
      "No response from agent" :=
  ⟨rfl, (sentinel_on_empty_scan (fun _ => "") ⟨[], none, [], none⟩ rfl).1⟩

/-- The response of the extraction-order example:
`artifacts=[{parts:[{text:"A"}]}]` and `result.text="B"`. -/
def exampleResponse : RawResult :=
  { artifacts := [⟨[Part.pdict (some "A") none none]⟩]
    text := some "B"
    messages := []
    status := none }

/-- Claim C4: the fragments are collected in source order — artifact
parts (text, else labelled pretty-printed data, else the kind-guarded
text; plain strings verbatim), then `result.text`, then the texts of
`result.messages`, then the texts of `result.status.message.parts` — the
extracted text is their newline-join when any fragment exists, and on
the example response with artifact text "A" and result text "B" it is
"A\nB". -/
theorem extraction_order (dumps : Json → String) (r : RawResult) :
    (extractTexts dumps r =
      artifactFragments dumps r ++ resultTextFragment r
        ++ messageFragments r ++ statusFragments r) ∧
    (extractTexts dumps r ≠ [] →
      extractResponseText dumps r =
        String.intercalate "\n" (extractTexts dumps r)) ∧
    extractResponseText dumps exampleResponse = "A\nB" := by
  refine ⟨rfl, fun h => ?_, rfl⟩
  unfold extractResponseText
  cases hts : extractTexts dumps r with
  | nil => exact absurd hts h
  | cons x xs => rfl

/-- Claim C4, witness: the example response has a non-empty fragment
list, and its extracted text is the join of the fragments. -/
theorem extraction_order_witness :
    extractTexts (fun _ => "") exampleResponse ≠ [] ∧
    extractResponseText (fun _ => "") exampleResponse =
      String.intercalate "\n" (extractTexts (fun _ => "") exampleResponse) :=
  ⟨by decide, (extraction_order (fun _ => "") exampleResponse).2.1 (by decide)⟩

/-- Claim C10: the `kind == "text"` branch of the artifact-part scan is
unreachable — its guard also demands a truthy `text`, which the first
branch has already consumed — so the extraction with that branch removed
agrees with the implemented one on every input. -/
theorem kind_branch_redundant (dumps : Json → String) (r : RawResult) :
    extractResponseTextNoKind dumps r = extractResponseText dumps r := by
  have hp : ∀ p : Part, partTextsNoKind dumps p = partTexts dumps p := by
    intro p
    cases p with
    | pdict text data kind =>
        cases ht : truthyStr text <;>
          simp [partTexts, partTextsNoKind, ht]
    | pstr s => rfl
  have hfun : partTextsNoKind dumps = partTexts dumps := funext hp
  have hart : artifactTextsNoKind dumps = artifactTexts dumps := by
    funext a
    simp [artifactTextsNoKind, artifactTexts, hfun]
  have htxt : extractTextsNoKind dumps r = extractTexts dumps r := by
    simp [extractTextsNoKind, extractTexts, hart]
  simp [extractResponseTextNoKind, extractResponseText, htxt]

/-- Claim C5: a requested name that is an exact (case-sensitive)
directory key resolves to itself — the dict-membership test short-cuts
the fuzzy loop — and the routing step delegates to exactly that key. -/
theorem exact_match_precedence (keys : List String) (name : String)
    (h : name ∈ keys) :
    resolveAgentName keys name = some name ∧
    routeSendMessage keys name = RouteResult.delegate name := by
  constructor
  · simp [resolveAgentName, h]
  · simp [routeSendMessage, resolveAgentName, h]

/-- Claim C5, witness: the exact key "Imports_Agent" resolves to itself
in a directory where a fuzzy scan could also have matched. -/
theorem exact_match_precedence_witness :
    "Imports_Agent" ∈ ["Imports_Agent", "Invoices_Agent"] ∧
    resolveAgentName ["Imports_Agent", "Invoices_Agent"] "Imports_Agent" =
      some "Imports_Agent" :=
  ⟨by decide,
    (exact_match_precedence ["Imports_Agent", "Invoices_Agent"] "Imports_Agent"
      (by decide)).1⟩

/-- Claim C6: when the requested name is not an exact key, resolution is
the first directory key (in iteration order) matching the
case-insensitive either-direction substring test, and when no key
matches, the routing step returns the error string enumerating every
available agent name and no delegation happens. -/
theorem fuzzy_match_or_error (keys : List String) (requested : String)
    (h : requested ∉ keys) :
    resolveAgentName keys requested =
      keys.find? (fun k => fuzzyMatch requested k) ∧
    ((∀ k ∈ keys, fuzzyMatch requested k = false) →
      routeSendMessage keys requested =
        RouteResult.errorReturn (agentNotFoundError requested keys)) := by
  constructor
  · simp [resolveAgentName, h]
  · intro hall
    have hnone : keys.find? (fun k => fuzzyMatch requested k) = none :=
      List.find?_eq_none.mpr (fun k hk => by simp [hall k hk])
    simp [routeSendMessage, resolveAgentName, h, hnone]

/-- Claim C6, witness: "WeatherBot" matches no key of the two-agent
directory, even fuzzily, and routing returns the enumerating error. -/
theorem fuzzy_match_or_error_witness :
    "WeatherBot" ∉ ["Imports_Agent", "Invoices_Agent"] ∧
    (∀ k ∈ ["Imports_Agent", "Invoices_Agent"],
      fuzzyMatch "WeatherBot" k = false) ∧
    routeSendMessage ["Imports_Agent", "Invoices_Agent"] "WeatherBot" =
      RouteResult.errorReturn
        (agentNotFoundError "WeatherBot" ["Imports_Agent", "Invoices_Agent"]) :=
  ⟨by decide, by decide,
    (fuzzy_match_or_error ["Imports_Agent", "Invoices_Agent"] "WeatherBot"
      (by decide)).2 (by decide)⟩

/-- Claim C8: after the connection is resolved, `send_message` always
returns a string — a raised transport (or any other) exception is caught
and becomes the communication-error string, and an envelope that is not
a success envelope carrying a task becomes the invalid-response error
string; both error strings mention the agent name. -/
theorem delegation_errors_returned (dumps : Json → String)
    (agentName : String) :
    (∀ m : String,
      sendAfterResolve dumps agentName (SendOutcome.raises m) =
        commError agentName m ∧
      ∃ pre post : String, commError agentName m = pre ++ agentName ++ post) ∧
    (sendAfterResolve dumps agentName
        (SendOutcome.responds Envelope.invalidShape) =
      invalidResponseError agentName ∧
    ∃ pre : String, invalidResponseError agentName = pre ++ agentName) := by
  refine ⟨fun m => ⟨rfl, "Error communicating with ", ": " ++ m, ?_⟩,
    rfl, "Error: Invalid response from agent ", rfl⟩
  simp [commError, String.append_assoc]

/-- Claim C9: the final-response event of `stream` always carries
`is_task_complete = true`, and its content is the newline-join of the
truthy part texts exactly when the first part's text is truthy — with a
first part lacking text the content is the empty string no matter what
the later parts hold. -/
theorem final_event_first_part_gate (c : EventContent) (p0 : EventPart)
    (rest : List EventPart) (h : c.parts = p0 :: rest) :
    (finalStreamEvent (some c)).is_task_complete = true ∧
    (finalStreamEvent (some c)).content =
      (if truthyStr p0.text then
        String.intercalate "\n"
          (((p0 :: rest).filter (fun p => truthyStr p.text)).map
            (fun p => p.text.getD ""))
      else "") := by
  obtain ⟨parts⟩ := c
  cases h
  exact ⟨rfl, rfl⟩

/-- Claim C9, witness: a final event whose first part has no text yields
empty content although a later part carries text. -/
theorem final_event_first_part_gate_witness :
    (EventContent.mk [⟨none⟩, ⟨some "later text"⟩]).parts =
      ⟨none⟩ :: [⟨some "later text"⟩] ∧
    (finalStreamEvent (some ⟨[⟨none⟩, ⟨some "later text"⟩]⟩)).content = "" := by
  refine ⟨rfl, ?_⟩
  have hth :=
    (final_event_first_part_gate ⟨[⟨none⟩, ⟨some "later text"⟩]⟩ ⟨none⟩
      [⟨some "later text"⟩] rfl).2
  simpa [truthyStr] using hth

end HostAgentModel
